import Mathlib

/-!
Verification development for the GSC URL Inspection tool (src/app.py).

The embedding models the inspection-orchestration core of app.py:
the quota tracker (check_quota / update_quota), the 24h result cache,
inspect_url, batch_inspect and parse_inspection_result.

Modelling conventions:
* Wall-clock instants are Nat milliseconds since an epoch.  Python's
  datetime.now().date() comparison is modelled by the epoch-day
  (milliseconds divided by one day); timedelta comparisons are plain
  Nat comparisons on milliseconds (a "negative" timedelta, which in
  Python compares below any positive bound, corresponds to truncated
  Nat subtraction yielding 0, which compares the same way).
* st.session_state is the record SessionState, threaded explicitly:
  quota_usage is the QuotaUsage record, cache is an association list.
  check_quota mutates session state in Python; here it returns the
  updated QuotaUsage next to its Bool answer, and callers thread it.
* The remote service (service.urlInspection().index().inspect(...)
  .execute()) is a parameter `remote : String → String → RemoteResult`
  returning either a raw response or an HttpError whose body is either
  JSON-unparseable (json.loads raises) or a parsed object with an
  optional error.message field (the .get chain of line 148).
* hashlib.md5 over the encoded "site:url" string is modelled by the
  encoded string itself: only determinism of the key matters to the
  code, and md5 is a deterministic function of that string.
* time.sleep(60) advances the clock by 60000 ms, time.sleep(0.1) by
  100 ms; progress_callback only reports and is omitted from the model.
-/

/-- Milliseconds in one minute (timedelta(minutes=1)). -/
def MINUTE_MS : Nat := 60000

/-- Milliseconds in one day; also the cache TTL, timedelta(hours=24). -/
def DAY_MS : Nat := 86400000

/-- Cache TTL of 24 hours (line 119). -/
def TTL_MS : Nat := 86400000

/-- Epoch-day of an instant, modelling datetime.now().date(). -/
def dateOf (t : Nat) : Nat := t / DAY_MS

/-- self.daily_limit = 2000 (line 76). -/
def daily_limit : Nat := 2000

/-- self.minute_limit = 600 (line 77). -/
def minute_limit : Nat := 600

/-- st.session_state.quota_usage (line 71): daily and per-minute call
counters, the daily reset instant, and the minute-window start.  The
minute_reset key is absent initially (line 71 stores only daily,
per_minute, last_reset), hence an Option. -/
structure QuotaUsage where
  daily : Nat
  per_minute : Nat
  last_reset : Nat
  minute_reset : Option Nat
deriving DecidableEq

/-- Initial quota state of line 71: both counters 0, last_reset = now,
no minute_reset key. -/
def initQuota (t0 : Nat) : QuotaUsage :=
  { daily := 0, per_minute := 0, last_reset := t0, minute_reset := none }

/-- Lines 88-90: reset the daily counter when the wall-clock date has
advanced past the date of the stored last_reset. -/
def roll_daily (now : Nat) (q : QuotaUsage) : QuotaUsage :=
  if dateOf q.last_reset < dateOf now then
    { q with daily := 0, last_reset := now }
  else q

/-- Lines 97-99: reset the per-minute counter when more than one minute
has elapsed since the stored minute_reset.  When the minute_reset key is
absent, Python's .get defaults to now, the elapsed time is 0 and no
reset (and no key insertion) happens. -/
def roll_minute (now : Nat) (q : QuotaUsage) : QuotaUsage :=
  match q.minute_reset with
  | some mr =>
      if mr + MINUTE_MS < now then
        { q with per_minute := 0, minute_reset := some now }
      else q
  | none => q

/-- GSCInspector.check_quota (lines 83-105).  Returns the Bool answer
and the session quota state as mutated by the rollover resets.  Note the
control flow of the source: the daily-limit check (line 93) returns
early, so the minute rollover (lines 97-99) only runs when the daily
check passed. -/
def check_quota (now : Nat) (q : QuotaUsage) : Bool × QuotaUsage :=
  if daily_limit ≤ (roll_daily now q).daily then
    (false, roll_daily now q)
  else if minute_limit ≤ (roll_minute now (roll_daily now q)).per_minute then
    (false, roll_minute now (roll_daily now q))
  else
    (true, roll_minute now (roll_daily now q))

/-- GSCInspector.update_quota (lines 107-110): increment both counters. -/
def update_quota (q : QuotaUsage) : QuotaUsage :=
  { q with daily := q.daily + 1, per_minute := q.per_minute + 1 }

/-- A detected rich-result item (line 251 reads richResultType). -/
structure DetectedItem where
  richResultType : Option String
deriving DecidableEq

/-- richResultsResult section (lines 247-251). -/
structure RichResultsResult where
  verdict : Option String
  detectedItems : Option (List DetectedItem)
deriving DecidableEq

/-- mobileUsabilityResult section (lines 243-244). -/
structure MobileUsabilityResult where
  verdict : Option String
deriving DecidableEq

/-- indexStatusResult section (lines 230-240). -/
structure IndexStatusResult where
  verdict : Option String
  coverageState : Option String
  indexingState : Option String
  lastCrawlTime : Option String
  pageFetchState : Option String
  robotsTxtState : Option String
  userCanonical : Option String
  googleCanonical : Option String
  crawledAs : Option String
deriving DecidableEq

/-- inspectionResult section of a raw response (lines 225-251).  Each
field is Optional: the code reads every one through .get or an
explicit membership test. -/
structure InspectionResult where
  inspectionResultLink : Option String
  indexStatusResult : Option IndexStatusResult
  mobileUsabilityResult : Option MobileUsabilityResult
  richResultsResult : Option RichResultsResult
deriving DecidableEq

/-- A raw inspection response, restricted to the fields the core reads. -/
structure Response where
  inspectionResult : Option InspectionResult
deriving DecidableEq

/-- A cache entry (lines 139-142): the raw response and the instant it
was stored. -/
structure CacheEntry where
  data : Response
  timestamp : Nat
deriving DecidableEq

/-- st.session_state.cache, a dict keyed by the md5 cache key, as an
association list. -/
def Cache : Type := List (String × CacheEntry)

instance : DecidableEq Cache := by unfold Cache; infer_instance

/-- Dict lookup: cache_key in cache / cache[cache_key]. -/
def cacheLookup : List (String × CacheEntry) → String → Option CacheEntry
  | [], _ => none
  | (k, e) :: rest, key => if k = key then some e else cacheLookup rest key

/-- Dict assignment cache[cache_key] = entry: overwrite an existing
binding, otherwise append. -/
def cacheInsert : List (String × CacheEntry) → String → CacheEntry →
    List (String × CacheEntry)
  | [], key, e => [(key, e)]
  | (k, e0) :: rest, key, e =>
      if k = key then (key, e) :: rest else (k, e0) :: cacheInsert rest key e

/-- GSCInspector.get_cache_key (lines 79-81): md5 of the encoded
"site_url:inspection_url" string, modelled by that string (md5 is a
deterministic function of it; only key determinism is used). -/
def get_cache_key (site_url inspection_url : String) : String :=
  site_url ++ ":" ++ inspection_url

/-- The decoded body of an HttpError (lines 146-148).  unparseable means
json.loads(e.content.decode()) raises; parsed em carries the value of
the .get chain: em = none when the error key is absent, some none when
error.message is absent, some (some m) when the message m is present. -/
inductive ErrorContent where
  | unparseable : ErrorContent
  | parsed : Option (Option String) → ErrorContent
deriving DecidableEq

/-- Result of the remote inspection call (line 133): a raw response, or
an HttpError carrying its decoded body. -/
inductive RemoteResult where
  | ok : Response → RemoteResult
  | httpError : ErrorContent → RemoteResult
deriving DecidableEq

/-- A Python exception as observed by callers: a plain Exception with
its message, or the json.JSONDecodeError escaping from line 147. -/
inductive PyError where
  | exc : String → PyError
  | jsonDecodeError : PyError
deriving DecidableEq

/-- str(e) as used on line 178. -/
def pyStr : PyError → String
  | PyError.exc m => m
  | PyError.jsonDecodeError => "Expecting value: line 1 column 1 (char 0)"

/-- The .get chain of line 148:
error_content.get('error', \x7b\x7d).get('message', 'Unknown error'). -/
def get_message : Option (Option String) → String
  | some (some m) => m
  | some none => "Unknown error"
  | none => "Unknown error"

/-- The exception produced by the except HttpError handler of lines
146-148, by case on the decoded body: an unparseable body makes
json.loads raise (so the JSONDecodeError escapes), a parsed body yields
the Exception with the extracted or fallback message. -/
def http_error_result : ErrorContent → PyError
  | ErrorContent.unparseable => PyError.jsonDecodeError
  | ErrorContent.parsed none => PyError.exc ("API Error: " ++ "Unknown error")
  | ErrorContent.parsed (some none) => PyError.exc ("API Error: " ++ "Unknown error")
  | ErrorContent.parsed (some (some m)) => PyError.exc ("API Error: " ++ m)

/-- Equality of Except values is decidable when both components are. -/
instance {e a : Type} [DecidableEq e] [DecidableEq a] : DecidableEq (Except e a) :=
  fun x y =>
    match x, y with
    | Except.ok v, Except.ok w =>
        if h : v = w then Decidable.isTrue (by rw [h])
        else Decidable.isFalse (fun hc => h (by cases hc; rfl))
    | Except.ok _, Except.error _ => Decidable.isFalse (fun hc => Except.noConfusion hc)
    | Except.error _, Except.ok _ => Decidable.isFalse (fun hc => Except.noConfusion hc)
    | Except.error v, Except.error w =>
        if h : v = w then Decidable.isTrue (by rw [h])
        else Decidable.isFalse (fun hc => h (by cases hc; rfl))

/-- The pieces of st.session_state the core reads and writes, plus the
modelled wall clock. -/
structure SessionState where
  now : Nat
  cache : List (String × CacheEntry)
  quota : QuotaUsage
deriving DecidableEq

/-- Lines 117-120: the fresh cache hit, if any.  A stale entry (24h or
older) falls through to the quota check and remote call. -/
def cache_fresh_hit (use_cache : Bool) (st : SessionState) (key : String) :
    Option Response :=
  if use_cache then
    match cacheLookup st.cache key with
    | some cd => if st.now - cd.timestamp < TTL_MS then some cd.data else none
    | none => none
  else none

/-- GSCInspector.inspect_url (lines 112-148).  Returns the response or
the raised exception, next to the session state after the call.  The
state mutation of check_quota is threaded through its returned record;
on success update_quota runs and the response is cached with the
current timestamp. -/
def inspect_url (remote : String → String → RemoteResult)
    (site_url inspection_url : String) (use_cache : Bool)
    (st : SessionState) : Except PyError Response × SessionState :=
  match cache_fresh_hit use_cache st (get_cache_key site_url inspection_url) with
  | some r => (Except.ok r, st)
  | none =>
      if (check_quota st.now st.quota).1 then
        match remote site_url inspection_url with
        | RemoteResult.ok response =>
            (Except.ok response,
             { st with
               quota := update_quota (check_quota st.now st.quota).2,
               cache := cacheInsert st.cache (get_cache_key site_url inspection_url)
                          { data := response, timestamp := st.now } })
        | RemoteResult.httpError ErrorContent.unparseable =>
            (Except.error PyError.jsonDecodeError,
             { st with quota := (check_quota st.now st.quota).2 })
        | RemoteResult.httpError (ErrorContent.parsed em) =>
            (Except.error (PyError.exc ("API Error: " ++ get_message em)),
             { st with quota := (check_quota st.now st.quota).2 })
      else
        (Except.error (PyError.exc "Quota limit reached. Please try again later."),
         { st with quota := (check_quota st.now st.quota).2 })

/-- Outcome status of one URL in a batch (lines 166 and 177). -/
inductive OutcomeStatus where
  | success : OutcomeStatus
  | error : OutcomeStatus
deriving DecidableEq

/-- One per-URL outcome record appended by batch_inspect
(lines 164-169 and 175-180). -/
structure Outcome where
  url : String
  status : OutcomeStatus
  data : Option Response
  error : Option String
  timestamp : Nat
deriving DecidableEq

/-- Lines 157-161: the preemptive throttle.  When the tracked per-minute
count is within 10 of the minute limit, sleep 60 seconds, zero the
per-minute counter and set the minute-window start to the (post-sleep)
current time. -/
def throttle_state (st : SessionState) : SessionState :=
  if minute_limit - 10 ≤ st.quota.per_minute then
    { st with
      now := st.now + MINUTE_MS,
      quota := { st.quota with
                 per_minute := 0, minute_reset := some (st.now + MINUTE_MS) } }
  else st

/-- One iteration of the batch_inspect loop (lines 155-183): throttle,
inspect with the default use_cache := true of line 163, then append a
success outcome (and sleep 0.1 s, line 172) or catch the exception and
append an error outcome. -/
def batch_step (remote : String → String → RemoteResult)
    (site_url url : String) (st : SessionState) : Outcome × SessionState :=
  match inspect_url remote site_url url true (throttle_state st) with
  | (Except.ok resp, st2) =>
      ({ url := url, status := OutcomeStatus.success, data := some resp,
         error := none, timestamp := st2.now },
       { st2 with now := st2.now + 100 })
  | (Except.error e, st2) =>
      ({ url := url, status := OutcomeStatus.error, data := none,
         error := some (pyStr e), timestamp := st2.now },
       st2)

/-- GSCInspector.batch_inspect (lines 150-185): fold batch_step over the
input URLs, collecting one outcome per URL in input order. -/
def batch_inspect (remote : String → String → RemoteResult)
    (site_url : String) : List String → SessionState →
    List Outcome × SessionState
  | [], st => ([], st)
  | url :: rest, st =>
      ((batch_step remote site_url url st).1 ::
         (batch_inspect remote site_url rest (batch_step remote site_url url st).2).1,
       (batch_inspect remote site_url rest (batch_step remote site_url url st).2).2)

/-- The flat record built by parse_inspection_result (lines 208-223). -/
structure FlatRecord where
  inspection_url : String
  inspection_result_link : String
  verdict : String
  coverage_state : String
  indexing_state : String
  last_crawl_time : String
  page_fetch_state : String
  robots_txt_state : String
  user_canonical : String
  google_canonical : String
  mobile_verdict : String
  rich_results_verdict : String
  rich_results_detected : String
  crawled_as : String
deriving DecidableEq

/-- The all-empty flat record: the defaults of lines 208-223 before any
section is read. -/
def emptyFlat : FlatRecord :=
  { inspection_url := "", inspection_result_link := "", verdict := "",
    coverage_state := "", indexing_state := "", last_crawl_time := "",
    page_fetch_state := "", robots_txt_state := "", user_canonical := "",
    google_canonical := "", mobile_verdict := "", rich_results_verdict := "",
    rich_results_detected := "", crawled_as := "" }

/-- parse_inspection_result (lines 206-253).  The argument is an outcome
record as built by batch_inspect; result.get('url', '') is the outcome's
url field (always present on outcomes), and every nested section is read
through .get with an empty-string default or an explicit membership
test, so a missing section leaves its fields at the defaults. -/
def parse_inspection_result (result : Outcome) : FlatRecord :=
  match result.data with
  | none => { emptyFlat with inspection_url := result.url }
  | some d =>
      match d.inspectionResult with
      | none => { emptyFlat with inspection_url := result.url }
      | some inspection =>
          let p1 : FlatRecord :=
            { emptyFlat with
              inspection_url := result.url,
              inspection_result_link := inspection.inspectionResultLink.getD "" }
          let p2 : FlatRecord :=
            match inspection.indexStatusResult with
            | none => p1
            | some idx =>
                { p1 with
                  verdict := idx.verdict.getD "",
                  coverage_state := idx.coverageState.getD "",
                  indexing_state := idx.indexingState.getD "",
                  last_crawl_time := idx.lastCrawlTime.getD "",
                  page_fetch_state := idx.pageFetchState.getD "",
                  robots_txt_state := idx.robotsTxtState.getD "",
                  user_canonical := idx.userCanonical.getD "",
                  google_canonical := idx.googleCanonical.getD "",
                  crawled_as := idx.crawledAs.getD "" }
          let p3 : FlatRecord :=
            match inspection.mobileUsabilityResult with
            | none => p2
            | some mu => { p2 with mobile_verdict := mu.verdict.getD "" }
          match inspection.richResultsResult with
          | none => p3
          | some rr =>
              { p3 with
                rich_results_verdict := rr.verdict.getD "",
                rich_results_detected :=
                  String.intercalate ", "
                    ((rr.detectedItems.getD []).map
                      (fun item => item.richResultType.getD "")) }

/-- True when the raw response of an outcome omits every nested section
(in particular the whole inspectionResult object). -/
def omits_all_sections (o : Outcome) : Bool :=
  match o.data with
  | none => true
  | some r => r.inspectionResult.isNone

/-- Shape invariant of one outcome: success records carry a payload and
no error message, error records the reverse. -/
def outcome_ok (o : Outcome) : Bool :=
  match o.status with
  | OutcomeStatus.success => o.data.isSome && o.error.isNone
  | OutcomeStatus.error => o.error.isSome && o.data.isNone

/-- One step of the quota discipline of C2: consult check_quota, and
record the call only when it answered true. -/
def quotaStep (t : Nat) (q : QuotaUsage) : QuotaUsage :=
  if (check_quota t q).1 then update_quota (check_quota t q).2
  else (check_quota t q).2

/-- A sequence of quota-disciplined calls at the given instants. -/
def quotaRun (ts : List Nat) (q : QuotaUsage) : QuotaUsage :=
  ts.foldl (fun acc t => quotaStep t acc) q

/-! ### Helper lemmas -/

theorem roll_daily_daily_le (now : Nat) (q : QuotaUsage) :
    (roll_daily now q).daily ≤ q.daily := by
  unfold roll_daily; split
  · exact Nat.zero_le _
  · exact Nat.le_refl _

theorem roll_daily_per_minute (now : Nat) (q : QuotaUsage) :
    (roll_daily now q).per_minute = q.per_minute := by
  unfold roll_daily; split <;> rfl

theorem roll_daily_minute_reset (now : Nat) (q : QuotaUsage) :
    (roll_daily now q).minute_reset = q.minute_reset := by
  unfold roll_daily; split <;> rfl

theorem roll_minute_per_minute_le (now : Nat) (q : QuotaUsage) :
    (roll_minute now q).per_minute ≤ q.per_minute := by
  unfold roll_minute
  cases q.minute_reset with
  | none => exact Nat.le_refl _
  | some mr =>
      dsimp only
      split
      · exact Nat.zero_le _
      · exact Nat.le_refl _

theorem roll_minute_daily (now : Nat) (q : QuotaUsage) :
    (roll_minute now q).daily = q.daily := by
  unfold roll_minute
  cases q.minute_reset with
  | none => rfl
  | some mr => dsimp only; split <;> rfl

theorem roll_minute_last_reset (now : Nat) (q : QuotaUsage) :
    (roll_minute now q).last_reset = q.last_reset := by
  unfold roll_minute
  cases q.minute_reset with
  | none => rfl
  | some mr => dsimp only; split <;> rfl

theorem check_quota_sound (now : Nat) (q : QuotaUsage) :
    (check_quota now q).2.daily ≤ q.daily ∧
    (check_quota now q).2.per_minute ≤ q.per_minute ∧
    ((check_quota now q).1 = true →
      (check_quota now q).2.daily < daily_limit ∧
      (check_quota now q).2.per_minute < minute_limit) := by
  unfold check_quota
  split
  · refine ⟨roll_daily_daily_le now q, ?_, ?_⟩
    · exact Nat.le_of_eq (roll_daily_per_minute now q)
    · intro h; exact absurd h (by simp)
  · rename_i h1
    split
    · refine ⟨?_, ?_, ?_⟩
      · rw [roll_minute_daily]; exact roll_daily_daily_le now q
      · calc (roll_minute now (roll_daily now q)).per_minute
              ≤ (roll_daily now q).per_minute := roll_minute_per_minute_le _ _
            _ = q.per_minute := roll_daily_per_minute now q
      · intro h; exact absurd h (by simp)
    · rename_i h2
      refine ⟨?_, ?_, ?_⟩
      · rw [roll_minute_daily]; exact roll_daily_daily_le now q
      · calc (roll_minute now (roll_daily now q)).per_minute
              ≤ (roll_daily now q).per_minute := roll_minute_per_minute_le _ _
            _ = q.per_minute := roll_daily_per_minute now q
      · intro _
        constructor
        · rw [roll_minute_daily]; exact Nat.lt_of_not_le h1
        · exact Nat.lt_of_not_le h2

theorem check_quota_daily_fields (now : Nat) (q : QuotaUsage) :
    (check_quota now q).2.daily = (roll_daily now q).daily ∧
    (check_quota now q).2.last_reset = (roll_daily now q).last_reset := by
  unfold check_quota
  split
  · exact ⟨rfl, rfl⟩
  · split <;> exact ⟨roll_minute_daily _ _, roll_minute_last_reset _ _⟩

theorem check_quota_minute_fields_pass (now : Nat) (q : QuotaUsage)
    (h : (roll_daily now q).daily < daily_limit) :
    (check_quota now q).2.per_minute =
      (roll_minute now (roll_daily now q)).per_minute ∧
    (check_quota now q).2.minute_reset =
      (roll_minute now (roll_daily now q)).minute_reset := by
  unfold check_quota
  rw [if_neg (Nat.not_le.mpr h)]
  split <;> exact ⟨rfl, rfl⟩

theorem check_quota_minute_fields_fail (now : Nat) (q : QuotaUsage)
    (h : daily_limit ≤ (roll_daily now q).daily) :
    (check_quota now q).2.per_minute = q.per_minute ∧
    (check_quota now q).2.minute_reset = q.minute_reset := by
  unfold check_quota
  rw [if_pos h]
  exact ⟨roll_daily_per_minute now q, roll_daily_minute_reset now q⟩

theorem cacheLookup_insert_self (c : List (String × CacheEntry)) (k : String)
    (e : CacheEntry) : cacheLookup (cacheInsert c k e) k = some e := by
  induction c with
  | nil => simp [cacheInsert, cacheLookup]
  | cons hd tl ih =>
      obtain ⟨k0, e0⟩ := hd
      unfold cacheInsert
      by_cases h : k0 = k
      · rw [if_pos h]; simp [cacheLookup]
      · rw [if_neg h]; unfold cacheLookup; rw [if_neg h]; exact ih

theorem inspect_url_hit (remote : String → String → RemoteResult)
    (site_url url : String) (st : SessionState) (cd : CacheEntry)
    (hl : cacheLookup st.cache (get_cache_key site_url url) = some cd)
    (hf : st.now - cd.timestamp < TTL_MS) :
    inspect_url remote site_url url true st = (Except.ok cd.data, st) := by
  unfold inspect_url cache_fresh_hit
  simp [hl, hf]

theorem cache_fresh_hit_none_of_lookup_none (st : SessionState) (key : String)
    (hl : cacheLookup st.cache key = none) :
    cache_fresh_hit true st key = none := by
  unfold cache_fresh_hit
  rw [if_pos rfl, hl]

theorem cache_fresh_hit_none_of_stale (st : SessionState) (key : String)
    (cd : CacheEntry) (hl : cacheLookup st.cache key = some cd)
    (hs : TTL_MS ≤ st.now - cd.timestamp) :
    cache_fresh_hit true st key = none := by
  unfold cache_fresh_hit
  simp [hl, Nat.not_lt.mpr hs]

theorem inspect_url_miss_ok (remote : String → String → RemoteResult)
    (site_url url : String) (st : SessionState) (resp : Response)
    (hm : cache_fresh_hit true st (get_cache_key site_url url) = none)
    (hq : (check_quota st.now st.quota).1 = true)
    (hr : remote site_url url = RemoteResult.ok resp) :
    inspect_url remote site_url url true st =
      (Except.ok resp,
       { st with
         quota := update_quota (check_quota st.now st.quota).2,
         cache := cacheInsert st.cache (get_cache_key site_url url)
                    { data := resp, timestamp := st.now } }) := by
  unfold inspect_url
  rw [hm, if_pos hq, hr]

theorem inspect_url_now (remote : String → String → RemoteResult)
    (site_url url : String) (use_cache : Bool) (st : SessionState) :
    (inspect_url remote site_url url use_cache st).2.now = st.now := by
  unfold inspect_url
  split
  · rfl
  · split
    · split <;> rfl
    · rfl

/-! ### Claim theorems -/

/-- C1: for every input list of N URLs (duplicates and failing URLs
included), batch_inspect returns exactly N outcome records, one per
input URL in input order (their url fields are exactly the input list),
each a success outcome carrying the raw response or an error outcome
carrying the failure message; the loop is total, so no per-URL failure
aborts it or propagates out of the call. -/
theorem batch_inspect_outcome_cardinality (remote : String → String → RemoteResult)
    (site_url : String) (urls : List String) (st : SessionState) :
    ((batch_inspect remote site_url urls st).1.map Outcome.url = urls) ∧
    ((batch_inspect remote site_url urls st).1.all outcome_ok = true) := by
  induction urls generalizing st with
  | nil => simp [batch_inspect]
  | cons u rest ih =>
      have hs : (batch_step remote site_url u st).1.url = u ∧
          outcome_ok (batch_step remote site_url u st).1 = true := by
        unfold batch_step
        rcases hi : inspect_url remote site_url u true (throttle_state st) with ⟨r, st2⟩
        cases r <;> simp [outcome_ok]
      obtain ⟨ih1, ih2⟩ := ih (batch_step remote site_url u st).2
      simp [batch_inspect, hs.1, hs.2, ih1, ih2]

/-- C2: for every sequence of quota-disciplined calls (check_quota
consulted, update_quota run only on a true answer), starting from the
initial session quota state, the daily counter never exceeds the daily
limit 2000 and the per-minute counter never exceeds the minute limit
600, at any point (any call sequence) whatsoever. -/
theorem quota_counters_within_limits (t0 : Nat) (ts : List Nat) :
    (quotaRun ts (initQuota t0)).daily ≤ daily_limit ∧
    (quotaRun ts (initQuota t0)).per_minute ≤ minute_limit := by
  have step : ∀ (t : Nat) (q : QuotaUsage), q.daily ≤ daily_limit →
      q.per_minute ≤ minute_limit →
      (quotaStep t q).daily ≤ daily_limit ∧
      (quotaStep t q).per_minute ≤ minute_limit := by
    intro t q h1 h2
    obtain ⟨hd, hm, himp⟩ := check_quota_sound t q
    unfold quotaStep
    split
    · rename_i hq
      obtain ⟨hd2, hm2⟩ := himp hq
      constructor
      · simp only [update_quota]
        exact hd2
      · simp only [update_quota]
        exact hm2
    · exact ⟨le_trans hd h1, le_trans hm h2⟩
  have main : ∀ (l : List Nat) (q : QuotaUsage), q.daily ≤ daily_limit →
      q.per_minute ≤ minute_limit →
      (quotaRun l q).daily ≤ daily_limit ∧
      (quotaRun l q).per_minute ≤ minute_limit := by
    intro l
    induction l with
    | nil => intro q h1 h2; exact ⟨h1, h2⟩
    | cons t l2 ih =>
        intro q h1 h2
        obtain ⟨h1s, h2s⟩ := step t q h1 h2
        simpa [quotaRun, List.foldl] using ih (quotaStep t q) h1s h2s
  exact main ts (initQuota t0) (by simp [initQuota, daily_limit])
    (by simp [initQuota, minute_limit])

/-- C3: calling inspect_url twice with the same (site, url) pair with
caching enabled, where the first call is a cache miss that passes the
quota check and succeeds remotely: the first call stores the response
and increments the quota exactly once; a second call whose stored entry
is younger than 24 hours returns the cached response with the session
state completely untouched (no remote call — the result does not depend
on remote2 — and no quota increment, so the quota was incremented
exactly once across the two calls); a second call whose stored entry is
24 hours old or older is a miss: it performs a new remote call and a
new quota increment and overwrites the cache entry. -/
theorem inspect_url_cache_ttl_quota (remote1 : String → String → RemoteResult)
    (site_url url : String) (st0 : SessionState) (resp : Response)
    (hmiss : cacheLookup st0.cache (get_cache_key site_url url) = none)
    (hq1 : (check_quota st0.now st0.quota).1 = true)
    (hr1 : remote1 site_url url = RemoteResult.ok resp) :
    inspect_url remote1 site_url url true st0 =
      (Except.ok resp,
       { st0 with
         quota := update_quota (check_quota st0.now st0.quota).2,
         cache := cacheInsert st0.cache (get_cache_key site_url url)
                    { data := resp, timestamp := st0.now } }) ∧
    (∀ (remote2 : String → String → RemoteResult) (t2 : Nat),
        t2 - st0.now < TTL_MS →
        inspect_url remote2 site_url url true
            { (inspect_url remote1 site_url url true st0).2 with now := t2 } =
          (Except.ok resp,
           { (inspect_url remote1 site_url url true st0).2 with now := t2 })) ∧
    (∀ (remote2 : String → String → RemoteResult) (t2 : Nat) (resp2 : Response),
        TTL_MS ≤ t2 - st0.now →
        (check_quota t2 (inspect_url remote1 site_url url true st0).2.quota).1 = true →
        remote2 site_url url = RemoteResult.ok resp2 →
        inspect_url remote2 site_url url true
            { (inspect_url remote1 site_url url true st0).2 with now := t2 } =
          (Except.ok resp2,
           { now := t2,
             cache := cacheInsert (inspect_url remote1 site_url url true st0).2.cache
                        (get_cache_key site_url url)
                        { data := resp2, timestamp := t2 },
             quota := update_quota
                        (check_quota t2
                          (inspect_url remote1 site_url url true st0).2.quota).2 })) := by
  have hm : cache_fresh_hit true st0 (get_cache_key site_url url) = none :=
    cache_fresh_hit_none_of_lookup_none st0 _ hmiss
  have h1 := inspect_url_miss_ok remote1 site_url url st0 resp hm hq1 hr1
  refine ⟨h1, ?_, ?_⟩
  · intro remote2 t2 hfresh
    rw [h1]
    refine inspect_url_hit remote2 site_url url _
      { data := resp, timestamp := st0.now } ?_ ?_
    · show cacheLookup
        (cacheInsert st0.cache (get_cache_key site_url url)
          { data := resp, timestamp := st0.now })
        (get_cache_key site_url url) = _
      exact cacheLookup_insert_self _ _ _
    · exact hfresh
  · intro remote2 t2 resp2 hstale hq2 hr2
    rw [h1] at hq2 ⊢
    refine inspect_url_miss_ok remote2 site_url url _ resp2 ?_ ?_ hr2
    · refine cache_fresh_hit_none_of_stale _ _
        { data := resp, timestamp := st0.now } ?_ ?_
      · show cacheLookup
          (cacheInsert st0.cache (get_cache_key site_url url)
            { data := resp, timestamp := st0.now })
          (get_cache_key site_url url) = _
        exact cacheLookup_insert_self _ _ _
      · exact hstale
    · exact hq2

/-- C3 witness: the theorem applied at a concrete miss-then-hit setup. -/
theorem inspect_url_cache_ttl_quota_witness :
    cacheLookup ([] : List (String × CacheEntry))
        (get_cache_key "https://site" "https://site/a") = none ∧
    (check_quota 0 (initQuota 0)).1 = true ∧
    inspect_url (fun _ _ => RemoteResult.ok { inspectionResult := none })
        "https://site" "https://site/a" true
        { now := 0, cache := [], quota := initQuota 0 } =
      (Except.ok { inspectionResult := none },
       { now := 0,
         cache := cacheInsert [] (get_cache_key "https://site" "https://site/a")
                    { data := { inspectionResult := none }, timestamp := 0 },
         quota := update_quota (check_quota 0 (initQuota 0)).2 }) :=
  ⟨rfl, by decide,
   (inspect_url_cache_ttl_quota (fun _ _ => RemoteResult.ok { inspectionResult := none })
      "https://site" "https://site/a" { now := 0, cache := [], quota := initQuota 0 }
      { inspectionResult := none } rfl (by decide) rfl).1⟩

/-- C4 counterexample: at a state whose daily counter already equals the
daily limit but whose stored reset date lies before the current date,
check_quota resets the daily counter and returns true — the claim says
it must return false (daily count at the limit) with the state
unchanged, and both parts fail at this input. -/
theorem check_quota_side_effect_counterexample :
    (check_quota DAY_MS
        { daily := 2000, per_minute := 0, last_reset := 0,
          minute_reset := none }).1 = true ∧
    (check_quota DAY_MS
        { daily := 2000, per_minute := 0, last_reset := 0,
          minute_reset := none }).2 ≠
      { daily := 2000, per_minute := 0, last_reset := 0,
        minute_reset := none } := by decide

/-- C4 (amended): when no rollover is pending (the current date does not
exceed the stored reset date, and at most 60 seconds have elapsed since
any stored minute-window start), check_quota returns false iff the daily
count is at or above 2000 or the per-minute count is at or above 600,
and performs no side effect (the quota state is unchanged after the
call). -/
theorem check_quota_no_rollover_pure (now : Nat) (q : QuotaUsage)
    (hd : dateOf now ≤ dateOf q.last_reset)
    (hm : ∀ mr, q.minute_reset = some mr → now ≤ mr + MINUTE_MS) :
    check_quota now q =
      (decide (q.daily < daily_limit ∧ q.per_minute < minute_limit), q) := by
  have h1 : roll_daily now q = q := by
    unfold roll_daily
    rw [if_neg (Nat.not_lt.mpr hd)]
  have h2 : roll_minute now q = q := by
    unfold roll_minute
    cases hmr : q.minute_reset with
    | none => rfl
    | some mr =>
        dsimp only
        rw [if_neg (Nat.not_lt.mpr (hm mr hmr))]
  unfold check_quota
  rw [h1, h2]
  by_cases h3 : daily_limit ≤ q.daily
  · rw [if_pos h3]
    have hn : ¬ (q.daily < daily_limit ∧ q.per_minute < minute_limit) :=
      fun hc => absurd hc.1 (Nat.not_lt.mpr h3)
    rw [decide_eq_false hn]
  · rw [if_neg h3]
    by_cases h4 : minute_limit ≤ q.per_minute
    · rw [if_pos h4]
      have hn : ¬ (q.daily < daily_limit ∧ q.per_minute < minute_limit) :=
        fun hc => absurd hc.2 (Nat.not_lt.mpr h4)
      rw [decide_eq_false hn]
    · rw [if_neg h4]
      have hp : q.daily < daily_limit ∧ q.per_minute < minute_limit :=
        ⟨Nat.lt_of_not_le h3, Nat.lt_of_not_le h4⟩
      rw [decide_eq_true hp]

/-- C4 witness: the amended theorem applied at a concrete
no-pending-rollover state. -/
theorem check_quota_no_rollover_pure_witness :
    dateOf 5 ≤ dateOf 5 ∧
    check_quota 5
        { daily := 3, per_minute := 4, last_reset := 5, minute_reset := none } =
      (decide (3 < daily_limit ∧ 4 < minute_limit),
       { daily := 3, per_minute := 4, last_reset := 5, minute_reset := none }) :=
  ⟨Nat.le_refl _,
   check_quota_no_rollover_pure 5
     { daily := 3, per_minute := 4, last_reset := 5, minute_reset := none }
     (Nat.le_refl _) (fun _ h => Option.noConfusion h)⟩

/-- C5 counterexample: an HttpError whose body json.loads cannot parse
makes inspect_url fail with the escaping JSONDecodeError, not with a
plain Exception carrying the generic fallback message — the message
extraction of line 147 itself raises, contradicting the claim. -/
theorem inspect_url_unparseable_counterexample :
    (inspect_url (fun _ _ => RemoteResult.httpError ErrorContent.unparseable)
        "https://site" "https://site/a" true
        { now := 0, cache := [], quota := initQuota 0 }).1 =
      Except.error PyError.jsonDecodeError := by decide

/-- C5 (amended): on a remote HttpError reached past the cache and quota
checks, inspect_url fails with the Exception whose message prefixes
"API Error: " to the message extracted from the parsed error body when
that body parses as an object (the fallback "Unknown error" applying
only when the error object or its message field is absent); when the
body is unparseable, json.loads raises and the JSONDecodeError
propagates out of inspect_url instead of the fallback message. -/
theorem inspect_url_http_error_message (remote : String → String → RemoteResult)
    (site_url url : String) (st : SessionState) (content : ErrorContent)
    (hm : cache_fresh_hit true st (get_cache_key site_url url) = none)
    (hq : (check_quota st.now st.quota).1 = true)
    (hr : remote site_url url = RemoteResult.httpError content) :
    (inspect_url remote site_url url true st).1 =
      Except.error (http_error_result content) := by
  unfold inspect_url
  rw [hm]
  dsimp only
  rw [if_pos hq]
  cases content with
  | unparseable => rw [hr]; rfl
  | parsed em =>
      cases em with
      | none => rw [hr]; rfl
      | some m2 =>
          cases m2 with
          | none => rw [hr]; rfl
          | some m => rw [hr]; rfl

/-- C5 witness: the amended theorem applied at a parsed error body
carrying a message. -/
theorem inspect_url_http_error_message_witness :
    (check_quota 0 (initQuota 0)).1 = true ∧
    (inspect_url
        (fun _ _ => RemoteResult.httpError (ErrorContent.parsed (some (some "boom"))))
        "https://site" "https://site/b" true
        { now := 0, cache := [], quota := initQuota 0 }).1 =
      Except.error (PyError.exc ("API Error: " ++ "boom")) :=
  ⟨by decide,
   inspect_url_http_error_message
     (fun _ _ => RemoteResult.httpError (ErrorContent.parsed (some (some "boom"))))
     "https://site" "https://site/b"
     { now := 0, cache := [], quota := initQuota 0 }
     (ErrorContent.parsed (some (some "boom"))) rfl (by decide) rfl⟩

/-- C6: evaluation at the failing input.  batch_inspect calls
inspect_url with the hard-coded default use_cache = true of line 163 and
accepts no cache flag at all, so the per-run cache setting (the use_cache
checkbox of line 378) cannot reach it: even with a remote stub that
always fails, a run holding a fresh cache entry returns the cached
response — a cache-disabled run can still return a cached response. -/
theorem batch_inspect_always_uses_cache :
    (batch_inspect (fun _ _ => RemoteResult.httpError ErrorContent.unparseable)
        "https://site" ["https://site/a"]
        { now := 1000,
          cache := [(get_cache_key "https://site" "https://site/a",
                     { data := { inspectionResult := none }, timestamp := 500 })],
          quota := initQuota 0 }).1 =
      [{ url := "https://site/a", status := OutcomeStatus.success,
         data := some { inspectionResult := none }, error := none,
         timestamp := 1000 }] := by decide

/-- C7 counterexample: with the daily counter at its limit (no date
change pending) and a minute window started more than 60 seconds ago,
check_quota returns false at the daily check and never reaches the
minute rollover: the per-minute counter stays 5 and the window start
does not advance, so the minute rollover is not independent of the
daily-limit check. -/
theorem check_quota_minute_reset_skipped_counterexample :
    check_quota 70000
        { daily := 2000, per_minute := 5, last_reset := 0,
          minute_reset := some 0 } =
      (false,
       { daily := 2000, per_minute := 5, last_reset := 0,
         minute_reset := some 0 }) := by decide

/-- C7 (amended): on a check_quota invocation, if the wall-clock date
has advanced past the stored reset date the daily counter is reset to 0
and the reset date advances to now (and when the date has not advanced
neither field changes, so the reset happens exactly once per date
change); the per-minute counter resets to 0 with its window start
advancing to now when more than 60 seconds have elapsed since the
stored window start — but only when the daily-limit check passes (the
post-rollover daily count is below the limit), since the early return
of the daily check skips the minute rollover; when at most 60 seconds
have elapsed, the per-minute fields are unchanged. -/
theorem check_quota_rollover_semantics (now : Nat) (q : QuotaUsage) :
    (dateOf q.last_reset < dateOf now →
       (check_quota now q).2.daily = 0 ∧
       (check_quota now q).2.last_reset = now) ∧
    (dateOf now ≤ dateOf q.last_reset →
       (check_quota now q).2.daily = q.daily ∧
       (check_quota now q).2.last_reset = q.last_reset) ∧
    (∀ mr, q.minute_reset = some mr → mr + MINUTE_MS < now →
       (roll_daily now q).daily < daily_limit →
       (check_quota now q).2.per_minute = 0 ∧
       (check_quota now q).2.minute_reset = some now) ∧
    (∀ mr, q.minute_reset = some mr → now ≤ mr + MINUTE_MS →
       (check_quota now q).2.per_minute = q.per_minute ∧
       (check_quota now q).2.minute_reset = some mr) := by
  refine ⟨?_, ?_, ?_, ?_⟩
  · intro hd
    obtain ⟨e1, e2⟩ := check_quota_daily_fields now q
    rw [e1, e2]
    unfold roll_daily
    rw [if_pos hd]
    exact ⟨rfl, rfl⟩
  · intro hd
    obtain ⟨e1, e2⟩ := check_quota_daily_fields now q
    rw [e1, e2]
    unfold roll_daily
    rw [if_neg (Nat.not_lt.mpr hd)]
    exact ⟨rfl, rfl⟩
  · intro mr hmr h60 hdl
    obtain ⟨e1, e2⟩ := check_quota_minute_fields_pass now q hdl
    rw [e1, e2]
    unfold roll_minute
    rw [roll_daily_minute_reset, hmr]
    dsimp only
    rw [if_pos h60]
    exact ⟨rfl, rfl⟩
  · intro mr hmr hle
    by_cases hdl : daily_limit ≤ (roll_daily now q).daily
    · obtain ⟨e1, e2⟩ := check_quota_minute_fields_fail now q hdl
      exact ⟨e1, by rw [e2, hmr]⟩
    · obtain ⟨e1, e2⟩ := check_quota_minute_fields_pass now q (Nat.lt_of_not_le hdl)
      rw [e1, e2]
      unfold roll_minute
      rw [roll_daily_minute_reset, hmr]
      dsimp only
      rw [if_neg (Nat.not_lt.mpr hle)]
      exact ⟨roll_daily_per_minute now q,
             by rw [roll_daily_minute_reset, hmr]⟩

/-- C7 witness: the amended theorem applied at a state whose minute
window expired, with the daily check passing. -/
theorem check_quota_rollover_semantics_witness :
    (0 + MINUTE_MS < 70000) ∧
    (roll_daily 70000
        { daily := 0, per_minute := 7, last_reset := 0,
          minute_reset := some 0 }).daily < daily_limit ∧
    ((check_quota 70000
        { daily := 0, per_minute := 7, last_reset := 0,
          minute_reset := some 0 }).2.per_minute = 0 ∧
     (check_quota 70000
        { daily := 0, per_minute := 7, last_reset := 0,
          minute_reset := some 0 }).2.minute_reset = some 70000) :=
  ⟨by decide, by decide,
   (check_quota_rollover_semantics 70000
      { daily := 0, per_minute := 7, last_reset := 0,
        minute_reset := some 0 }).2.2.1 0 rfl (by decide) (by decide)⟩

/-- C8 counterexample: parse_inspection_result is total, but for an
outcome whose raw response omits every nested section the returned
record is not all-empty: the inspection_url field carries the outcome's
url, here a nonempty string. -/
theorem parse_result_nonempty_field_counterexample :
    (parse_inspection_result
        { url := "https://a.com/1", status := OutcomeStatus.success,
          data := none, error := none, timestamp := 0 }).inspection_url ≠
      "" := by decide

/-- C8 (amended): parse_inspection_result is a total function on outcome
records (by construction of the embedding, mirroring the pervasive .get
defaults of lines 206-253), and for an outcome whose raw response omits
every nested section every field of the returned flat record equals the
empty string except inspection_url, which equals the outcome's url
field. -/
theorem parse_inspection_result_empty_sections (o : Outcome)
    (h : omits_all_sections o = true) :
    parse_inspection_result o = { emptyFlat with inspection_url := o.url } := by
  unfold parse_inspection_result
  cases hd : o.data with
  | none => rfl
  | some r =>
      obtain ⟨ir⟩ := r
      cases ir with
      | none => rfl
      | some i =>
          exfalso
          unfold omits_all_sections at h
          rw [hd] at h
          simp at h

/-- C8 witness: the amended theorem applied at an outcome whose raw
response is present but empty. -/
theorem parse_inspection_result_empty_sections_witness :
    omits_all_sections
        { url := "https://a.com/1", status := OutcomeStatus.success,
          data := some { inspectionResult := none }, error := none,
          timestamp := 3 } = true ∧
    parse_inspection_result
        { url := "https://a.com/1", status := OutcomeStatus.success,
          data := some { inspectionResult := none }, error := none,
          timestamp := 3 } =
      { emptyFlat with inspection_url := "https://a.com/1" } :=
  ⟨rfl, parse_inspection_result_empty_sections _ rfl⟩

/-- C9: in the batch loop, before inspecting a URL, if the tracked
per-minute count is within 10 of the minute limit the runner pauses for
60 seconds and resets the per-minute count to 0 and the minute-window
start to the (post-pause) current time before invoking the inspection —
the whole step behaves exactly as the step run from that reset state —
and the inspection then happens at the post-pause instant; otherwise no
preemptive pause occurs and the inspection happens at the current
instant. -/
theorem batch_step_preemptive_throttle (remote : String → String → RemoteResult)
    (site_url url : String) (st : SessionState) :
    (minute_limit - 10 ≤ st.quota.per_minute →
       batch_step remote site_url url st =
         batch_step remote site_url url
           { st with
             now := st.now + MINUTE_MS,
             quota := { st.quota with
                        per_minute := 0,
                        minute_reset := some (st.now + MINUTE_MS) } } ∧
       (batch_step remote site_url url st).1.timestamp = st.now + MINUTE_MS) ∧
    (st.quota.per_minute < minute_limit - 10 →
       (batch_step remote site_url url st).1.timestamp = st.now) := by
  constructor
  · intro h
    have ht : throttle_state st =
        { st with
          now := st.now + MINUTE_MS,
          quota := { st.quota with
                     per_minute := 0,
                     minute_reset := some (st.now + MINUTE_MS) } } := by
      unfold throttle_state
      rw [if_pos h]
    have ht2 : throttle_state
        { st with
          now := st.now + MINUTE_MS,
          quota := { st.quota with
                     per_minute := 0,
                     minute_reset := some (st.now + MINUTE_MS) } } =
        { st with
          now := st.now + MINUTE_MS,
          quota := { st.quota with
                     per_minute := 0,
                     minute_reset := some (st.now + MINUTE_MS) } } := by
      unfold throttle_state
      dsimp only
      rw [if_neg (by decide)]
    constructor
    · unfold batch_step
      rw [ht, ht2]
    · unfold batch_step
      rw [ht]
      rcases hi : inspect_url remote site_url url true
          { st with
            now := st.now + MINUTE_MS,
            quota := { st.quota with
                       per_minute := 0,
                       minute_reset := some (st.now + MINUTE_MS) } } with ⟨r, st2⟩
      have hn : st2.now = st.now + MINUTE_MS := by
        have hh := inspect_url_now remote site_url url true
          { st with
            now := st.now + MINUTE_MS,
            quota := { st.quota with
                       per_minute := 0,
                       minute_reset := some (st.now + MINUTE_MS) } }
        rw [hi] at hh
        exact hh
      cases r <;> simp [hn]
  · intro h
    have ht : throttle_state st = st := by
      unfold throttle_state
      rw [if_neg (Nat.not_le.mpr h)]
    unfold batch_step
    rw [ht]
    rcases hi : inspect_url remote site_url url true st with ⟨r, st2⟩
    have hn : st2.now = st.now := by
      have hh := inspect_url_now remote site_url url true st
      rw [hi] at hh
      exact hh
    cases r <;> simp [hn]

/-- C9 witness: the theorem applied at a state whose per-minute count is
at the throttle threshold. -/
theorem batch_step_preemptive_throttle_witness :
    minute_limit - 10 ≤ 600 ∧
    (batch_step (fun _ _ => RemoteResult.ok { inspectionResult := none })
        "https://site" "https://site/a"
        { now := 0, cache := [],
          quota := { daily := 0, per_minute := 600, last_reset := 0,
                     minute_reset := none } } =
      batch_step (fun _ _ => RemoteResult.ok { inspectionResult := none })
        "https://site" "https://site/a"
        { now := 0 + MINUTE_MS, cache := [],
          quota := { daily := 0, per_minute := 0, last_reset := 0,
                     minute_reset := some (0 + MINUTE_MS) } } ∧
     (batch_step (fun _ _ => RemoteResult.ok { inspectionResult := none })
        "https://site" "https://site/a"
        { now := 0, cache := [],
          quota := { daily := 0, per_minute := 600, last_reset := 0,
                     minute_reset := none } }).1.timestamp = 0 + MINUTE_MS) :=
  ⟨by decide,
   (batch_step_preemptive_throttle
      (fun _ _ => RemoteResult.ok { inspectionResult := none })
      "https://site" "https://site/a"
      { now := 0, cache := [],
        quota := { daily := 0, per_minute := 600, last_reset := 0,
                   minute_reset := none } }).1 (by decide)⟩

/-- C10: whenever inspect_url fails (quota exhausted, or any remote
error), the resulting session state differs from the input state only in
the quota record, which equals exactly the output of check_quota at the
call instant: the cache mapping (including any stale entry for the same
key) and the clock are untouched, and neither counter is incremented —
the check_quota output's counters are at most the input counters (the
internal time-rollover resets are the only possible change). -/
theorem inspect_url_error_frame (remote : String → String → RemoteResult)
    (site_url url : String) (use_cache : Bool) (st : SessionState) (e : PyError)
    (h : (inspect_url remote site_url url use_cache st).1 = Except.error e) :
    (inspect_url remote site_url url use_cache st).2 =
      { st with quota := (check_quota st.now st.quota).2 } ∧
    (check_quota st.now st.quota).2.daily ≤ st.quota.daily ∧
    (check_quota st.now st.quota).2.per_minute ≤ st.quota.per_minute := by
  refine ⟨?_, (check_quota_sound st.now st.quota).1,
          (check_quota_sound st.now st.quota).2.1⟩
  unfold inspect_url at h ⊢
  cases hc : cache_fresh_hit use_cache st (get_cache_key site_url url) with
  | some r =>
      rw [hc] at h
      simp at h
  | none =>
      rw [hc] at h
      dsimp only at h ⊢
      by_cases hq : (check_quota st.now st.quota).1 = true
      · rw [if_pos hq] at h ⊢
        cases hr : remote site_url url with
        | ok resp =>
            rw [hr] at h
            simp at h
        | httpError content =>
            cases content <;> rfl
      · rw [if_neg hq] at h ⊢

/-- C10 witness: the theorem applied at a failing call over a state
holding a stale cache entry for the same key, which is left in place. -/
theorem inspect_url_error_frame_witness :
    (inspect_url (fun _ _ => RemoteResult.httpError ErrorContent.unparseable)
        "https://s" "https://s/x" true
        { now := 86400000,
          cache := [(get_cache_key "https://s" "https://s/x",
                     { data := { inspectionResult := none }, timestamp := 0 })],
          quota := initQuota 0 }).1 = Except.error PyError.jsonDecodeError ∧
    ((inspect_url (fun _ _ => RemoteResult.httpError ErrorContent.unparseable)
        "https://s" "https://s/x" true
        { now := 86400000,
          cache := [(get_cache_key "https://s" "https://s/x",
                     { data := { inspectionResult := none }, timestamp := 0 })],
          quota := initQuota 0 }).2 =
      { now := 86400000,
        cache := [(get_cache_key "https://s" "https://s/x",
                   { data := { inspectionResult := none }, timestamp := 0 })],
        quota := (check_quota 86400000 (initQuota 0)).2 } ∧
     (check_quota 86400000 (initQuota 0)).2.daily ≤ (initQuota 0).daily ∧
     (check_quota 86400000 (initQuota 0)).2.per_minute ≤ (initQuota 0).per_minute) :=
  ⟨by decide,
   inspect_url_error_frame (fun _ _ => RemoteResult.httpError ErrorContent.unparseable)
     "https://s" "https://s/x" true
     { now := 86400000,
       cache := [(get_cache_key "https://s" "https://s/x",
                  { data := { inspectionResult := none }, timestamp := 0 })],
       quota := initQuota 0 }
     PyError.jsonDecodeError (by decide)⟩
